import Mathlib

/-!
Verification of the element-resolution and action-execution engine of an
AI-driven desktop form-filling tool (files `ai_form_filler.py` and
`proseries_w2_automation.py`).

The embedding is shallow: each relevant Python function is translated into a
computable Lean function over explicit tree / action data types.  Bounded
recursion on `current_depth`/`max_depth` pairs is represented by the remaining
fuel `max_depth - current_depth`, which is how the source functions actually
terminate.  Side effects performed through the accessibility backend are made
explicit as effect traces where a claim is about purity.
-/

namespace FormAuto

/-! ## String helpers mirroring the Python string operations used by the code
(`in`, `.lower()`, `.startswith`, `float(...)` on simple decimal literals). -/

/-- Does the second character list start with the first one? -/
def beginsWith : List Char → List Char → Bool
  | [], _ => true
  | _ :: _, [] => false
  | a :: as, b :: bs => a == b && beginsWith as bs

/-- Python `needle in hay` on character lists: `needle` occurs contiguously. -/
def containsChars (needle : List Char) : List Char → Bool
  | [] => beginsWith needle []
  | c :: t => beginsWith needle (c :: t) || containsChars needle t

/-- Python `needle in hay` for strings (case-sensitive). -/
def strContains (hay needle : String) : Bool :=
  containsChars needle.data hay.data

/-- Python `s.lower()` (ASCII). -/
def lowerStr (s : String) : String :=
  ⟨s.data.map Char.toLower⟩

/-- Python `needle.lower() in hay.lower()`. -/
def strContainsCI (hay needle : String) : Bool :=
  strContains (lowerStr hay) (lowerStr needle)

/-- Numeric value of a digit string. -/
def digitsVal (l : List Char) : Nat :=
  l.foldl (fun acc c => acc * 10 + (c.toNat - '0'.toNat)) 0

/-- Python `s.strip()` on the character level. -/
def stripChars (l : List Char) : List Char :=
  ((l.dropWhile Char.isWhitespace).reverse.dropWhile Char.isWhitespace).reverse

/-- Continuation of a `digitpart` of Python's float grammar after one digit
has been read: consumes `(["_"] digit | digit)*` greedily, returning the
digits read (underscores elided) and the unconsumed remainder.  An underscore
is consumed only when followed by a digit, exactly as CPython requires
(`"1_0"` reads fully; `"1_"` and `"1__0"` stop after the first digit and the
caller then rejects the leftover). -/
def digitsAfter : List Char → List Char × List Char
  | [] => ([], [])
  | '_' :: [] => ([], ['_'])
  | '_' :: d :: rest2 =>
      if d.isDigit then
        let p := digitsAfter rest2
        (d :: p.1, p.2)
      else ([], '_' :: d :: rest2)
  | c :: rest =>
      if c.isDigit then
        let p := digitsAfter rest
        (c :: p.1, p.2)
      else ([], c :: rest)

/-- A full `digitpart` of Python's float grammar: `digit (["_"] digit)*`,
returning the digits read and the unconsumed remainder (empty digit list when
the input does not start with a digit). -/
def takeDigitsU : List Char → List Char × List Char
  | [] => ([], [])
  | c :: rest =>
      if c.isDigit then
        let p := digitsAfter rest
        (c :: p.1, p.2)
      else ([], c :: rest)

/-- Value of the fraction digits `f` read after the decimal point. -/
def fracVal (f : List Char) : Rat :=
  (digitsVal f : Rat) / ((10 : Rat) ^ f.length)

/-- Value of a mantissa with integer digits `ip` and fraction digits `f`. -/
def mantissaVal (ip f : List Char) : Rat :=
  (digitsVal ip : Rat) + fracVal f

/-- An unsigned `number` of Python's float grammar:
`[digitpart] ["." [digitpart]] [("e"|"E") [sign] digitpart]`, with at least
one digit in the mantissa and nothing left over; `none` is CPython's
`ValueError`. -/
def parseNumber (l : List Char) : Option Rat :=
  let ipr := takeDigitsU l
  let ip := ipr.1
  let fr := match ipr.2 with
    | '.' :: r => takeDigitsU r
    | _ => ([], ipr.2)
  let fp := fr.1
  let r2 := fr.2
  if ip.isEmpty && fp.isEmpty then none
  else
    match r2 with
    | [] => some (mantissaVal ip fp)
    | e :: r3 =>
        if e == 'e' || e == 'E' then
          let sgn := match r3 with
            | '+' :: rr => (false, rr)
            | '-' :: rr => (true, rr)
            | _ => (false, r3)
          let ed := takeDigitsU sgn.2
          if ed.1.isEmpty then none
          else if !ed.2.isEmpty then none
          else if sgn.1 then some (mantissaVal ip fp / ((10 : Rat) ^ digitsVal ed.1))
          else some (mantissaVal ip fp * ((10 : Rat) ^ digitsVal ed.1))
        else none

/-- Result of a successful Python `float(s)`: a finite value, a signed
infinity, or a NaN.  Infinities and NaNs arise only from the explicit
`inf`/`infinity`/`nan` spellings. -/
inductive FloatLit where
  | fin (q : Rat)
  | inf (neg : Bool)
  | nan
deriving DecidableEq

/-- Python `float(s)` on strings: surrounding whitespace is stripped, an
optional sign is read, then either a case-insensitive `inf`/`infinity`/`nan`
spelling or a decimal number with optional fraction, exponent and underscore
digit separators.  `none` models the `ValueError` (unicode digits are not
modelled; no claim exercises them). -/
def pyFloat (s : String) : Option FloatLit :=
  let l := stripChars s.data
  let sg := match l with
    | '-' :: r => (true, r)
    | '+' :: r => (false, r)
    | _ => (false, l)
  let low := sg.2.map Char.toLower
  if low == "inf".data || low == "infinity".data then some (.inf sg.1)
  else if low == "nan".data then some .nan
  else
    match parseNumber sg.2 with
    | some q => some (.fin (if sg.1 then -q else q))
    | none => none

/-! ## Accessibility-tree data model

`AXNode` embeds the data visible to `ai_form_filler.py` through `_safe_get`:
each attribute is independently optional (`None` in Python when absent or
unreadable), and `children` is the `AXChildren` list.  This is the
`UIElementNode` of the specification. -/

/-- One accessibility node as read through the atomacos backend.  A `none`
attribute models `_safe_get` returning `None` (absent or unreadable). -/
inductive AXNode where
  | mk (role title descr value identifier : Option String)
       (enabled : Option Bool) (children : List AXNode)

/-- The `AXRole` attribute. -/
def AXNode.role : AXNode → Option String
  | .mk r _ _ _ _ _ _ => r

/-- The `AXTitle` attribute. -/
def AXNode.title : AXNode → Option String
  | .mk _ t _ _ _ _ _ => t

/-- The `AXDescription` attribute. -/
def AXNode.descr : AXNode → Option String
  | .mk _ _ d _ _ _ _ => d

/-- The `AXValue` attribute. -/
def AXNode.value : AXNode → Option String
  | .mk _ _ _ v _ _ _ => v

/-- The `AXIdentifier` attribute. -/
def AXNode.identifier : AXNode → Option String
  | .mk _ _ _ _ i _ _ => i

/-- The `AXEnabled` attribute. -/
def AXNode.enabled : AXNode → Option Bool
  | .mk _ _ _ _ _ e _ => e

/-- The `AXChildren` list. -/
def AXNode.children : AXNode → List AXNode
  | .mk _ _ _ _ _ _ ch => ch

/-- The `ElementCriteria` descriptor built by `fill_form` and consumed by
`find_element_by_criteria` / `_search_element`.  The Python value is a dict;
a key that is absent from the dict behaves exactly like a key mapped to an
empty string, because `_search_element` guards every comparison with
`if value and elem_value`.  We therefore model the criteria as four string
fields where `""` means "not provided". -/
structure Criteria where
  title : String
  identifier : String
  role : String
  descr : String

/-- The `criteria.items()` sequence iterated by `_search_element`. -/
def criteriaItems (c : Criteria) : List (String × String) :=
  [("title", c.title), ("identifier", c.identifier),
   ("role", c.role), ("description", c.descr)]

/-- Python `key.title()` for the single-word criteria keys. -/
def titleCase (s : String) : String :=
  match s.data with
  | [] => ""
  | c :: rest => ⟨c.toUpper :: rest.map Char.toLower⟩

/-- The attribute name `f"AX{key.title().replace('_', '')}"` built by
`_search_element` (the keys carry no underscore). -/
def axAttrName (k : String) : String :=
  "AX" ++ titleCase k

/-- Embeds `_safe_get(element, attr_name)` for the four criteria-addressable
attributes. -/
def getAttr (n : AXNode) (k : String) : Option String :=
  if k == "title" then n.title
  else if k == "identifier" then n.identifier
  else if k == "role" then n.role
  else if k == "description" then n.descr
  else none

/-- One iteration of the criteria loop in `_search_element`: the pair passes
unless both the criteria value and the element value are non-empty and the
criteria value is not a case-insensitive substring of the element value. -/
def itemOK (n : AXNode) (k v : String) : Bool :=
  match getAttr n k with
  | some ev => if v == "" || ev == "" then true else strContainsCI ev v
  | none => true

/-- Backend side effects visible in the source: `_safe_get` reads an
attribute; `fill_field` writes attributes (`AXFocused`, `AXValue`).  Element
resolution is claimed to perform reads only. -/
inductive AXEffect where
  | read (attr : String)
  | write (attr : String) (value : String)

/-- Is this effect a pure read? -/
def AXEffect.isRead : AXEffect → Bool
  | .read _ => true
  | .write _ _ => false

/-- The criteria-matching loop of `_search_element`, with the attribute reads
it performs (`_safe_get` runs before the truthiness guard; the loop breaks at
the first failing pair). -/
def matchLoop (n : AXNode) : List (String × String) → Bool × List AXEffect
  | [] => (true, [])
  | (k, v) :: rest =>
      if itemOK n k v then
        let m := matchLoop n rest
        (m.1, AXEffect.read (axAttrName k) :: m.2)
      else (false, [AXEffect.read (axAttrName k)])

/-- Does `_search_element` consider `n` a match for `c`, together with the
reads performed while deciding? -/
def nodeMatchesCritE (c : Criteria) (n : AXNode) : Bool × List AXEffect :=
  matchLoop n (criteriaItems c)

/-- The boolean matching verdict of `_search_element` on one node. -/
def nodeMatchesCrit (c : Criteria) (n : AXNode) : Bool :=
  (nodeMatchesCritE c n).1

/-- The child loop of `_search_element`: return the first truthy result,
accumulating the effect traces of the children actually visited. -/
def searchKids : List (Option AXNode × List AXEffect) → Option AXNode × List AXEffect
  | [] => (none, [])
  | (some r, es) :: _ => (some r, es)
  | (none, es) :: rest =>
      let k := searchKids rest
      (k.1, es ++ k.2)

/-- Embeds `_search_element(element, criteria, max_depth, current_depth)` with the
remaining depth budget `max_depth - current_depth` passed as fuel, returning
the found element together with the trace of backend effects performed.
Fuel `0` is the `current_depth >= max_depth` cutoff returning `None`. -/
def searchElementT (c : Criteria) : Nat → AXNode → Option AXNode × List AXEffect
  | 0, _ => (none, [])
  | f + 1, n =>
      let m := nodeMatchesCritE c n
      if m.1 then (some n, m.2)
      else
        let k := searchKids (n.children.map (searchElementT c f))
        (k.1, m.2 ++ k.2)

/-- The result component of `_search_element`. -/
def searchElementFuel (c : Criteria) (fuel : Nat) (n : AXNode) : Option AXNode :=
  (searchElementT c fuel n).1

/-- Embeds `_search_element` in its source signature (`max_depth` defaults to 10 at
the call sites; `current_depth` starts at 0). -/
def searchElement (element : AXNode) (c : Criteria) (maxDepth currentDepth : Nat) :
    Option AXNode :=
  searchElementFuel c (maxDepth - currentDepth) element

/-- The nodes of the tree rooted at `n` whose depth (root at depth 0) is
strictly below `fuel`, listed in depth-first pre-order — exactly the nodes
`_search_element` can examine with that remaining budget. -/
def nodesWithin : Nat → AXNode → List AXNode
  | 0, _ => []
  | f + 1, n => n :: (n.children.map (nodesWithin f)).flatten

/-- Interpretation of an effect trace on the live tree: reads leave the tree
unchanged, writes update the touched attribute (shown here on the root — the
source writes only inside `fill_field`, never during resolution). -/
def setAttrTop : AXNode → String → String → AXNode
  | .mk r t d vl i e ch, a, v =>
      if a == "AXTitle" then .mk r (some v) d vl i e ch
      else if a == "AXValue" then .mk r t d (some v) i e ch
      else .mk r t d vl i e ch

/-- Run an effect trace against the live tree. -/
def runEffects (w : AXNode) : List AXEffect → AXNode
  | [] => w
  | AXEffect.read _ :: rest => runEffects w rest
  | AXEffect.write a v :: rest => runEffects (setAttrTop w a v) rest

/-! ## Snapshot traversal of `ai_form_filler.py` (`_traverse_ui_tree`)

The produced JSON dict keeps an attribute key only when its value is truthy
(`{k: v for k, v in ui_info.items() if v}`), and adds a `children` key only
when the `AXChildren` list is non-empty.  A node at or beyond `max_depth`
becomes the literal sentinel dict with the single key `truncated`. -/

/-- One entry of the snapshot produced by `_traverse_ui_tree`: either the
sentinel `truncated` dict or an info dict whose attribute fields are present
exactly when they were retained by the truthiness filter. -/
inductive Snap where
  | truncated
  | info (role title descr value identifier : Option String)
         (enabled : Option Bool) (children : Option (List Snap))

/-- Truthiness filter on a string attribute: `None` and `""` are dropped. -/
def keepStr : Option String → Option String
  | some s => if s == "" then none else some s
  | none => none

/-- Truthiness filter on a boolean attribute: only `True` is kept. -/
def keepBool : Option Bool → Option Bool
  | some b => if b then some true else none
  | none => none

/-- Embeds `_traverse_ui_tree(element, max_depth, current_depth)` with remaining
budget `max_depth - current_depth` as fuel; fuel `0` is the
`current_depth >= max_depth` branch returning the sentinel. -/
def traverseFuel : Nat → AXNode → Snap
  | 0, _ => .truncated
  | f + 1, n =>
      .info (keepStr n.role) (keepStr n.title) (keepStr n.descr)
        (keepStr n.value) (keepStr n.identifier) (keepBool n.enabled)
        (match n.children with
         | [] => none
         | chs => some (chs.map (traverseFuel f)))

/-- Embeds `_traverse_ui_tree` in its source signature (`max_depth` defaults to 6 at
the `get_ui_structure` call site; `current_depth` starts at 0). -/
def traverseUITree (maxDepth currentDepth : Nat) (n : AXNode) : Snap :=
  traverseFuel (maxDepth - currentDepth) n

/-- The `children` entry of a snapshot dict, when present. -/
def snapChildren : Snap → Option (List Snap)
  | .truncated => none
  | .info _ _ _ _ _ _ ch => ch

/-! ## The pywinauto side (`proseries_w2_automation.py`)

`WElem` embeds what `_find_element_by_target` and `get_ui_tree_structure`
read from a UIA wrapper: `window_text()`, `automation_id`, `control_type`,
`class_name`, `rectangle`, `is_enabled()`, `is_visible()` and `children()`. -/

/-- One UIA element as seen through pywinauto. -/
inductive WElem where
  | mk (name autoId controlType className rect : String)
       (enabled visible : Bool) (children : List WElem)

/-- Reads `window_text()`. -/
def WElem.wname : WElem → String
  | .mk n _ _ _ _ _ _ _ => n

/-- Reads `element_info.automation_id`. -/
def WElem.wautoId : WElem → String
  | .mk _ a _ _ _ _ _ _ => a

/-- Reads `element_info.control_type`. -/
def WElem.wcontrolType : WElem → String
  | .mk _ _ c _ _ _ _ _ => c

/-- Reads `element_info.class_name`. -/
def WElem.wclassName : WElem → String
  | .mk _ _ _ cl _ _ _ _ => cl

/-- Reads `str(rectangle())`. -/
def WElem.wrect : WElem → String
  | .mk _ _ _ _ r _ _ _ => r

/-- Reads `is_enabled()`. -/
def WElem.wenabled : WElem → Bool
  | .mk _ _ _ _ _ e _ _ => e

/-- Reads `is_visible()`. -/
def WElem.wvisible : WElem → Bool
  | .mk _ _ _ _ _ _ v _ => v

/-- Reads `children()`. -/
def WElem.wchildren : WElem → List WElem
  | .mk _ _ _ _ _ _ _ ch => ch

mutual

/-- The subtree rooted at an element, in depth-first pre-order. -/
def wsubtree : WElem → List WElem
  | .mk n a c cl r e v ch => .mk n a c cl r e v ch :: wsubtreeList ch

/-- Pre-order flattening of a forest. -/
def wsubtreeList : List WElem → List WElem
  | [] => []
  | x :: xs => wsubtree x ++ wsubtreeList xs

end

/-- Embeds `main_window.descendants()` — every element strictly below the main
window, in document (pre-order) order. -/
def wdescendants (root : WElem) : List WElem :=
  wsubtreeList root.wchildren

/-- Semantics of one `child_window(criteria).exists()` probe in
`_find_element_by_target`: pywinauto's `find_element` succeeds only when
exactly one descendant satisfies the criteria.  With zero matches `exists()`
catches the `ElementNotFoundError` and returns `False`; with several matches
(for example a duplicated automation id) `find_element` raises
`ElementAmbiguousError`, which `exists()` does not catch and which the
method's bare `except: pass` turns into a fall-through to the next
strategy.  Both non-unique outcomes are therefore `none` here. -/
def uniqueMatch (p : WElem → Bool) (ds : List WElem) : Option WElem :=
  match ds.filter p with
  | [e] => some e
  | _ => none

/-- Embeds `_find_element_by_target(target)`: the four lookup strategies
applied in source order — (1) `child_window(title=target,
control_type="Edit")`, (2) `child_window(auto_id=target)`,
(3) `child_window(title_re=f".*{target}.*", control_type="Edit")`
(`target` taken literally, as the claims use meta-character-free targets),
(4) a descendant scan for `target.lower() in text.lower()` on visible
elements.  The three `child_window` strategies resolve only on a unique
match (see `uniqueMatch`); the final scan returns the first match in
document order. -/
def findElementByTarget (root : WElem) (target : String) : Option WElem :=
  let ds := wdescendants root
  match uniqueMatch (fun e => e.wname == target && e.wcontrolType == "Edit") ds with
  | some e => some e
  | none =>
    match uniqueMatch (fun e => e.wautoId == target) ds with
    | some e => some e
    | none =>
      match uniqueMatch (fun e => strContains e.wname target && e.wcontrolType == "Edit") ds with
      | some e => some e
      | none => ds.find? (fun e => strContainsCI e.wname target && e.wvisible)

/-- One entry of the snapshot built by `get_ui_tree_structure`: `empty`
models the falsy `{}` dict returned past the bound (and on read errors);
there is no truncation sentinel in this format. -/
inductive WSnap where
  | empty
  | node (ctype name autoId className rect : String)
         (enabled visible : Bool) (children : List WSnap)

/-- Is this the falsy `{}` dict? -/
def isEmptySnap : WSnap → Bool
  | .empty => true
  | .node _ _ _ _ _ _ _ _ => false

/-- Embeds `get_ui_tree_structure(element, depth, max_depth)` with fuel
`max_depth + 1 - depth`: fuel `0` is the `depth > max_depth` branch returning
`{}`; children are walked only while `depth < max_depth`, only the first 20
are kept (`children[:20]`), and falsy child results are not appended. -/
def wTraverse : Nat → WElem → WSnap
  | 0, _ => .empty
  | f + 1, el =>
      .node el.wcontrolType el.wname el.wautoId el.wclassName el.wrect
        el.wenabled el.wvisible
        (if 0 < f then
          ((el.wchildren.take 20).map (wTraverse f)).filter (fun s => !isEmptySnap s)
         else [])

/-- Embeds `get_ui_tree_structure` in its source signature (`max_depth` defaults to
5, `get_focused_form_structure` calls it with 4; `depth` starts at 0). -/
def getUITreeStructure (el : WElem) (depth maxDepth : Nat) : WSnap :=
  wTraverse (maxDepth + 1 - depth) el

/-- Number of children recorded for the root entry of a snapshot. -/
def wsnapChildCount : WSnap → Nat
  | .empty => 0
  | .node _ _ _ _ _ _ _ ch => ch.length

/-! ## Actions and the executor (`proseries_w2_automation.py`)

`execute_actions` reads each action dict with `.get`, dispatches on the
`type` field through an if/elif chain, and wraps the whole body of each loop
iteration in `try/except` that logs the failure and continues with the next
action.  The method returns `True` unconditionally.  The dispatch helpers
(`_set_text_action`, `_click_action`, `_select_action`, `_tab_action`,
`time.sleep`) go through the UIA backend; they are abstracted here as a
record of fallible operations. -/

/-- One oracle-supplied action dict: `action.get('type')` may be absent,
`target`/`value`/`description` default to the empty string. -/
structure PyAction where
  type : Option String
  target : String
  value : String
  description : String

/-- The fallible backend operations invoked by the dispatch branches. -/
structure Dispatch where
  setText : String → String → Except String Unit
  click : String → Except String Unit
  select : String → String → Except String Unit
  tab : Except String Unit
  sleep : Rat → Except String Unit

/-- The wait-duration computation of the `wait` branch:
`wait_time = float(value) if value else 1.0`, immediately followed by
`time.sleep(wait_time)`.  An empty (falsy) value defaults to `1.0`; a
non-empty value goes through `float`, whose `ValueError` propagates out of
the branch.  The `inf`/`nan` spellings parse successfully in `float` but
make the immediately following CPython `time.sleep` raise before any
suspension happens (`OverflowError` for infinities during the conversion to
a C timestamp, `ValueError` for NaN), so the branch maps them to those
errors; finite durations are handed to the backend sleep. -/
def waitBranch (value : String) : Except String Rat :=
  if value == "" then .ok 1
  else
    match pyFloat value with
    | some (.fin q) => .ok q
    | some (.inf _) => .error "OverflowError: timestamp too large to convert to C PyTime_t"
    | some .nan => .error "ValueError: Invalid value NaN (not a number)"
    | none => .error "ValueError: could not convert string to float"

/-- The body of one `execute_actions` loop iteration: the if/elif dispatch on
`action.get('type')`.  An unrecognized (or absent) type matches no branch and
the iteration completes without doing or recording anything. -/
def actionBody (d : Dispatch) (a : PyAction) : Except String Unit :=
  if a.type == some "set_text" then d.setText a.target a.value
  else if a.type == some "click" then d.click a.target
  else if a.type == some "select" then d.select a.target a.value
  else if a.type == some "tab" then d.tab
  else if a.type == some "wait" then
    match waitBranch a.value with
    | .ok t => d.sleep t
    | .error e => .error e
  else .ok ()

/-- The recorded outcome of one action: `none` when the iteration completed,
`some e` when the `except` clause caught `e` and logged it as a failure. -/
def outcome (d : Dispatch) (a : PyAction) : Option String :=
  match actionBody d a with
  | .ok _ => none
  | .error e => some e

/-- The per-action loop of `execute_actions`: every action is attempted; a
caught exception is recorded and the loop continues with the next action. -/
def executeActionsAux (d : Dispatch) : List PyAction → List (Option String)
  | [] => []
  | a :: rest => outcome d a :: executeActionsAux d rest

/-- Embeds `execute_actions(actions)`: the list of per-action recorded outcomes (the
log) paired with the Python return value, which is the literal `True`. -/
def executeActions (d : Dispatch) (actions : List PyAction) :
    List (Option String) × Bool :=
  (executeActionsAux d actions, true)

/-- Embeds `ask_gemini_for_actions` after the model reply has been stripped and
handed to `json.loads`: a successful parse is returned as the action list
unchanged — no per-entry kind validation happens — and any parse failure
yields the empty list. -/
def askGeminiForActions (parsed : Except String (List PyAction)) : List PyAction :=
  match parsed with
  | .ok acts => acts
  | .error _ => []

/-- Does the action's `type` name one of the five dispatch branches? -/
def isKnownKind (a : PyAction) : Bool :=
  a.type == some "set_text" || a.type == some "click" || a.type == some "select"
    || a.type == some "tab" || a.type == some "wait"

/-! ## Concrete sample data used by closed theorems and witnesses. -/

/-- A backend on which every operation succeeds. -/
def dOk : Dispatch :=
  { setText := fun _ _ => .ok ()
    click := fun _ => .ok ()
    select := fun _ _ => .ok ()
    tab := .ok ()
    sleep := fun _ => .ok () }

/-- A backend on which `click` raises and everything else succeeds. -/
def dFail2 : Dispatch :=
  { dOk with click := fun _ => .error "boom" }

/-- A three-action plan whose middle action is a `click`. -/
def plan3 : List PyAction :=
  [{ type := some "set_text", target := "A", value := "1", description := "" },
   { type := some "click", target := "B", value := "", description := "" },
   { type := some "set_text", target := "C", value := "2", description := "" }]

/-- An entry whose kind names no dispatch branch. -/
def teleportAct : PyAction :=
  { type := some "teleport", target := "X", value := "", description := "" }

/-- An oracle list with one unknown-kind entry and two valid entries. -/
def c5List : List PyAction :=
  [teleportAct,
   { type := some "set_text", target := "A", value := "1", description := "" },
   { type := some "click", target := "B", value := "", description := "" }]

/-- A `wait` action with the given raw value string. -/
def waitAct (v : String) : PyAction :=
  { type := some "wait", target := "", value := v, description := "" }

/-- A `wait` action whose value is not parseable as a number. -/
def waitAbc : PyAction :=
  waitAct "abc"

/-- The criteria dict `\x7b\x7d` built by `fill_form` when the oracle supplied
neither a title nor an identifier: every field empty. -/
def emptyCriteria : Criteria :=
  { title := "", identifier := "", role := "", descr := "" }

/-- Criteria asking for a title containing `Wages`. -/
def critWages : Criteria :=
  { title := "Wages", identifier := "", role := "", descr := "" }

/-- A leaf whose title matches `critWages`. -/
def wagesLeaf : AXNode :=
  .mk (some "AXTextField") (some "Box 1 Wages") none none (some "wages_field")
    (some true) []

/-- A panel that does not match `critWages`, holding `wagesLeaf`. -/
def panelNode : AXNode :=
  .mk (some "AXGroup") (some "Panel") none none none (some true) [wagesLeaf]

/-- A window whose only `critWages` match sits at depth 2. -/
def deepTree : AXNode :=
  .mk (some "AXWindow") (some "Win") none none none (some true) [panelNode]

/-- An Edit control whose title is exactly `Wages`. -/
def nodeTitleWages : WElem :=
  .mk "Wages" "a1" "Edit" "" "" true true []

/-- An Edit control whose automation id is exactly `Wages`. -/
def nodeIdWages : WElem :=
  .mk "Employer" "Wages" "Edit" "" "" true true []

/-- A window holding both an exact-title match and the unique exact-id match
for the target `Wages`. -/
def c2Root : WElem :=
  .mk "Win" "" "Window" "" "" true true [nodeTitleWages, nodeIdWages]

/-- An Edit control whose title contains `Wages` as a proper substring. -/
def nearMatch : WElem :=
  .mk "Box 1 Wages" "b1" "Edit" "" "" true true []

/-- An Edit control whose automation id is exactly `Wages` and whose title is
unrelated. -/
def idNode : WElem :=
  .mk "SomethingElse" "Wages" "Edit" "" "" true true []

/-- A window with a title-substring near-match and the unique exact-id match,
but no exact-title match, for the target `Wages`. -/
def c2Root2 : WElem :=
  .mk "Win" "" "Window" "" "" true true [nearMatch, idNode]

/-- First of two elements sharing the automation id `dup`. -/
def dupA : WElem :=
  .mk "First" "dup" "Edit" "" "" true true []

/-- Second of two elements sharing the automation id `dup`. -/
def dupB : WElem :=
  .mk "Second" "dup" "Edit" "" "" true true []

/-- An Edit element whose title contains `dup` as a substring. -/
def subNode : WElem :=
  .mk "has dup inside" "x" "Edit" "" "" true true []

/-- A window where the automation id `dup` is duplicated, so the auto-id
probe is ambiguous and the code falls through to the substring strategies. -/
def dupRoot : WElem :=
  .mk "Win" "" "Window" "" "" true true [dupA, dupB, subNode]

/-- A grandchild element, below the bound for `max_depth = 1`. -/
def chainGrand : WElem :=
  .mk "G" "" "Edit" "" "" true true []

/-- A child holding one grandchild. -/
def chainChild1 : WElem :=
  .mk "C" "" "Pane" "" "" true true [chainGrand]

/-- The same child with no grandchild at all. -/
def chainChild0 : WElem :=
  .mk "C" "" "Pane" "" "" true true []

/-- A three-level chain: root, child, grandchild. -/
def chain3 : WElem :=
  .mk "R" "" "Window" "" "" true true [chainChild1]

/-- A two-level chain: root and child only. -/
def chain2 : WElem :=
  .mk "R" "" "Window" "" "" true true [chainChild0]

/-- A featureless leaf element. -/
def blankLeaf : WElem :=
  .mk "L" "" "Edit" "" "" true true []

/-- A window with 21 children, one more than the `children[:20]` cap. -/
def wide21 : WElem :=
  .mk "W" "" "Window" "" "" true true (List.replicate 21 blankLeaf)

/-- An accessibility node at the bound with two children. -/
def twoKids : AXNode :=
  .mk (some "AXGroup") (some "Grp") none none none (some true)
    [.mk (some "AXTextField") (some "A") none none none (some true) [],
     .mk (some "AXTextField") (some "B") none none none (some true) []]

/-- First truthy result of a sequence of optional search results. -/
def listFirstSome : List (Option AXNode) → Option AXNode
  | [] => none
  | some r :: _ => some r
  | none :: rest => listFirstSome rest

/-! ## Helper lemmas about the search embedding. -/

/-- Lemma: `find?` over an appended list looks in the left part first. -/
theorem find_append_helper (p : AXNode → Bool) :
    ∀ l1 l2 : List AXNode,
      (l1 ++ l2).find? p =
        (match l1.find? p with
         | some x => some x
         | none => l2.find? p) := by
  intro l1 l2
  induction l1 with
  | nil => simp
  | cons a l ih =>
      by_cases hpa : p a = true
      · simp [List.find?_cons, hpa]
      · simp only [Bool.not_eq_true] at hpa
        simp [List.find?_cons, hpa, ih]

/-- The result component of the child loop is the first truthy child
result. -/
theorem searchKids_fst :
    ∀ xs : List (Option AXNode × List AXEffect),
      (searchKids xs).1 = listFirstSome (xs.map (fun p => p.1)) := by
  intro xs
  induction xs with
  | nil => rfl
  | cons hd tl ih =>
      rcases hd with ⟨r, es⟩
      cases r with
      | none => simp [searchKids, listFirstSome, ih]
      | some v => simp [searchKids, listFirstSome]

/-- Scanning children one at a time and taking the first truthy result is the
same as searching the flattened pre-order list, provided each child search
agrees with the flattened search of its own subtree. -/
theorem listFirstSome_find (p : AXNode → Bool) (g : AXNode → Option AXNode)
    (gl : AXNode → List AXNode) (hg : ∀ ch, g ch = (gl ch).find? p) :
    ∀ chs : List AXNode,
      listFirstSome (chs.map g) = ((chs.map gl).flatten).find? p := by
  intro chs
  induction chs with
  | nil => rfl
  | cons a l ih =>
      simp only [List.map_cons, List.flatten_cons]
      rw [find_append_helper]
      rw [← hg a]
      cases hga : g a with
      | none => simpa [listFirstSome, hga] using ih
      | some v => simp [listFirstSome, hga]

/-- Lemma: `_search_element` computes the first node, in depth-first pre-order among
the nodes within the remaining depth budget, that matches the criteria. -/
theorem search_fuel_eq_find :
    ∀ (f : Nat) (c : Criteria) (n : AXNode),
      searchElementFuel c f n =
        (nodesWithin f n).find? (fun m => nodeMatchesCrit c m) := by
  intro f
  induction f with
  | zero => intro c n; rfl
  | succ f ih =>
      intro c n
      show (searchElementT c (f + 1) n).1 = _
      rw [searchElementT]
      by_cases hm : nodeMatchesCrit c n = true
      · have hm' : (nodeMatchesCritE c n).1 = true := hm
        simp only [hm', if_true]
        simp [nodesWithin, List.find?_cons, hm]
      · simp only [Bool.not_eq_true] at hm
        have hm' : (nodeMatchesCritE c n).1 = false := hm
        simp only [hm', Bool.false_eq_true, if_false]
        rw [searchKids_fst, List.map_map]
        have hcomp :
            ((fun p : Option AXNode × List AXEffect => p.1) ∘ searchElementT c f)
              = fun ch => searchElementFuel c f ch := rfl
        rw [hcomp]
        rw [listFirstSome_find (fun m => nodeMatchesCrit c m)
          (fun ch => searchElementFuel c f ch) (nodesWithin f) (fun ch => ih c ch)]
        simp [nodesWithin, List.find?_cons, hm]

/-! ## C6 -/

/-- C6: element resolution (`_search_element`) traverses the tree depth-first
pre-order and is bounded at `max_depth`: the result is the first pre-order
match among the nodes at depth below the bound (in particular the traversal
terminates — the function is total — and never returns a node at depth
`≥ max_depth`), and on a tree in which no node within the bound matches, the
resolution returns `None`, even when matching nodes exist below the bound. -/
theorem search_bounded_preorder (c : Criteria) (maxD : Nat) (n : AXNode) :
    searchElement n c maxD 0 =
      (nodesWithin maxD n).find? (fun m => nodeMatchesCrit c m) ∧
    ((∀ m ∈ nodesWithin maxD n, nodeMatchesCrit c m = false) →
      searchElement n c maxD 0 = none) := by
  constructor
  · show searchElementFuel c (maxD - 0) n = _
    rw [Nat.sub_zero]
    exact search_fuel_eq_find maxD c n
  · intro h
    show searchElementFuel c (maxD - 0) n = none
    rw [Nat.sub_zero, search_fuel_eq_find maxD c n]
    rw [List.find?_eq_none]
    intro x hx
    simp [h x hx]

/-- C6 witness: on the concrete window whose only `critWages` match sits at
depth 2, a `max_depth` of 2 makes the search return `None`. -/
theorem search_bounded_preorder_witness :
    searchElement deepTree critWages 2 0 = none :=
  (search_bounded_preorder critWages 2 deepTree).2 (by decide)

/-! ## C1 -/

/-- C1: contrary to the specified behavior, `_search_element` applied to a
criteria object with all fields empty returns the root element itself rather
than `NotFound` — the empty criteria loop never sets `matches = False`, so
the very first node examined is reported as a match (the
"empty criteria matches everything" defect the specification orders fixed). -/
theorem empty_criteria_matches_root :
    searchElement deepTree emptyCriteria 10 0 = some deepTree := by
  rfl

/-! ## C8: purity of element resolution -/

/-- The criteria loop performs attribute reads only. -/
theorem matchLoop_all_read (n : AXNode) :
    ∀ items : List (String × String),
      ((matchLoop n items).2).all AXEffect.isRead = true := by
  intro items
  induction items with
  | nil => rfl
  | cons hd tl ih =>
      rcases hd with ⟨k, v⟩
      by_cases h : itemOK n k v = true
      · simp [matchLoop, h, AXEffect.isRead, ih]
      · simp only [Bool.not_eq_true] at h
        simp [matchLoop, h, AXEffect.isRead]

/-- The child loop preserves read-only effect traces. -/
theorem searchKids_all_read :
    ∀ xs : List (Option AXNode × List AXEffect),
      (∀ p ∈ xs, p.2.all AXEffect.isRead = true) →
      (searchKids xs).2.all AXEffect.isRead = true := by
  intro xs
  induction xs with
  | nil => intro _; rfl
  | cons hd tl ih =>
      intro h
      rcases hd with ⟨r, es⟩
      have hes : es.all AXEffect.isRead = true := h (r, es) (by simp)
      cases r with
      | none =>
          have htl : (searchKids tl).2.all AXEffect.isRead = true :=
            ih (fun p hp => h p (by simp [hp]))
          simp only [searchKids, List.all_append, Bool.and_eq_true]
          exact And.intro hes htl
      | some v => simpa [searchKids] using hes

/-- Every effect `_search_element` performs is an attribute read. -/
theorem searchT_all_read :
    ∀ (f : Nat) (c : Criteria) (n : AXNode),
      ((searchElementT c f n).2).all AXEffect.isRead = true := by
  intro f
  induction f with
  | zero => intro c n; rfl
  | succ f ih =>
      intro c n
      rw [searchElementT]
      by_cases hm : (nodeMatchesCritE c n).1 = true
      · simpa [hm] using matchLoop_all_read n (criteriaItems c)
      · simp only [Bool.not_eq_true] at hm
        have hkids : (searchKids (n.children.map (searchElementT c f))).2.all
            AXEffect.isRead = true := by
          apply searchKids_all_read
          intro p hp
          rcases List.mem_map.mp hp with ⟨ch, _, hch⟩
          rw [← hch]
          exact ih c ch
        simp only [hm, Bool.false_eq_true, if_false, List.all_append,
          Bool.and_eq_true]
        exact And.intro (matchLoop_all_read n (criteriaItems c)) hkids

/-- A read-only effect trace leaves the live tree untouched. -/
theorem runEffects_reads (w : AXNode) :
    ∀ es : List AXEffect, es.all AXEffect.isRead = true → runEffects w es = w := by
  intro es
  induction es with
  | nil => intro _; rfl
  | cons e rest ih =>
      intro h
      simp only [List.all_cons, Bool.and_eq_true] at h
      cases e with
      | read a => exact ih h.2
      | write a v => simp [AXEffect.isRead] at h

/-- C8: element resolution is a pure read.  Every backend effect it performs
is a read, so the live tree after a resolution equals the tree before it, and
resolving the same criteria a second time against the resulting (unchanged)
tree returns the same answer as the first resolution — idempotence and
determinism, with no element state mutated. -/
theorem search_pure_idempotent (c : Criteria) (fuel : Nat) (w : AXNode) :
    (searchElementT c fuel w).2.all AXEffect.isRead = true ∧
    runEffects w (searchElementT c fuel w).2 = w ∧
    searchElementFuel c fuel (runEffects w (searchElementT c fuel w).2) =
      searchElementFuel c fuel w := by
  have h1 := searchT_all_read fuel c w
  have h2 := runEffects_reads w (searchElementT c fuel w).2 h1
  exact ⟨h1, h2, by rw [h2]⟩

/-! ## C10: falsy attributes are omitted from the snapshot -/

/-- C10: `_traverse_ui_tree` drops every falsy attribute value from a node's
snapshot entry.  A node whose `AXEnabled` reads `False` produces the exact
same entry as one whose `AXEnabled` is absent or unreadable, and an
empty-string title, value or identifier produces the same entry as an absent
one. -/
theorem snapshot_falsy_omitted (r t d v i : Option String) (e : Option Bool)
    (ch : List AXNode) (maxD cur : Nat) :
    traverseUITree maxD cur (.mk r t d v i (some false) ch) =
      traverseUITree maxD cur (.mk r t d v i none ch) ∧
    traverseUITree maxD cur (.mk r (some "") d v i e ch) =
      traverseUITree maxD cur (.mk r none d v i e ch) ∧
    traverseUITree maxD cur (.mk r t d (some "") i e ch) =
      traverseUITree maxD cur (.mk r t d none i e ch) ∧
    traverseUITree maxD cur (.mk r t d v (some "") e ch) =
      traverseUITree maxD cur (.mk r t d v none e ch) := by
  unfold traverseUITree
  cases hf : maxD - cur with
  | zero => exact ⟨rfl, rfl, rfl, rfl⟩
  | succ f =>
      refine ⟨?_, ?_, ?_, ?_⟩ <;>
        simp [traverseFuel, keepStr, keepBool, AXNode.role, AXNode.title,
          AXNode.descr, AXNode.value, AXNode.identifier, AXNode.enabled,
          AXNode.children]

/-! ## C7: truncation sentinel at the depth bound -/

/-- C7 counterexample: the `get_ui_tree_structure` snapshot of
`proseries_w2_automation.py` silently drops nodes beyond the depth bound —
with `max_depth = 1`, a three-level chain snapshots to exactly the same value
as the two-level chain missing the grandchild, so the beyond-bound node
leaves no trace (no sentinel of any kind exists in this format).  It also
silently drops siblings: a window with 21 children records only the first 20
(`children[:20]`). -/
theorem wsnapshot_drops_beyond_bound :
    getUITreeStructure chain3 0 1 = getUITreeStructure chain2 0 1 ∧
    wsnapChildCount (getUITreeStructure wide21 0 5) = 20 := by
  constructor
  · rfl
  · rfl

/-- C7 amended: the depth-bounded snapshot with an explicit sentinel is the
behavior of `_traverse_ui_tree` in `ai_form_filler.py` only: there, a node at
the bound becomes the literal sentinel dict `truncated`, and a parent sitting
just above the bound records one sentinel per child — no node at the bound,
and none of its siblings, is dropped.  (`get_ui_tree_structure` in
`proseries_w2_automation.py` instead drops beyond-bound nodes and siblings
past the first 20 silently, as the counterexample shows.) -/
theorem traverse_bound_is_sentinel (n : AXNode) (maxD cur : Nat)
    (h1 : cur + 1 = maxD) (h2 : n.children ≠ []) :
    traverseUITree maxD maxD n = Snap.truncated ∧
    snapChildren (traverseUITree maxD cur n) =
      some (n.children.map (fun _ => Snap.truncated)) := by
  constructor
  · show traverseFuel (maxD - maxD) n = Snap.truncated
    rw [Nat.sub_self]
    rfl
  · show snapChildren (traverseFuel (maxD - cur) n) = _
    have hone : maxD - cur = 1 := by omega
    rw [hone]
    cases hch : n.children with
    | nil => exact absurd hch h2
    | cons a l =>
        simp only [traverseFuel, hch, snapChildren]

/-- C7 witness: the concrete group node with two children, snapshotted with
the bound one level below it, records both children as sentinels. -/
theorem traverse_bound_is_sentinel_witness :
    snapChildren (traverseUITree 1 0 twoKids) =
      some (twoKids.children.map (fun _ => Snap.truncated)) :=
  (traverse_bound_is_sentinel twoKids 1 0 rfl
    (by simp [twoKids, AXNode.children])).2

/-! ## C2: matching-strategy precedence -/

/-- C2 counterexample: in `_find_element_by_target` the identifier lookup is
not strategy 1 — the exact-title lookup on Edit controls runs first.  On a
window holding the unique element whose automation id exactly equals the
target `Wages` (namely `nodeIdWages`) alongside an Edit element titled
exactly `Wages`, resolution returns the title-matched element, not the
identifier-matched one. -/
theorem findElement_title_beats_identifier :
    findElementByTarget c2Root "Wages" = some nodeTitleWages ∧
    (wdescendants c2Root).filter (fun e => e.wautoId == "Wages") = [nodeIdWages] ∧
    nodeTitleWages.wname ≠ nodeIdWages.wname := by
  refine ⟨rfl, rfl, ?_⟩
  decide

/-- C2 amended: exact identifier match is strategy 2 of
`_find_element_by_target`, tried after the exact-title match on Edit controls
but before both title-substring strategies.  For every target, on a tree
containing exactly one descendant whose automation id exactly matches the
target and in which the exact-title probe on Edit controls does not resolve
uniquely, resolution returns that identifier-matched descendant, regardless
of any title-substring near-matches in the tree. -/
theorem identifier_match_second_strategy (root : WElem) (target : String)
    (b : WElem)
    (h1 : uniqueMatch (fun e => e.wname == target && e.wcontrolType == "Edit")
      (wdescendants root) = none)
    (h2 : (wdescendants root).filter (fun e => e.wautoId == target) = [b]) :
    findElementByTarget root target = some b := by
  simp only [findElementByTarget, h1]
  simp only [uniqueMatch, h2]

/-- C2 amended witness: with target `Wages`, a tree containing the
title-substring near-match `Box 1 Wages` and exactly one element with
automation id `Wages` resolves to the identifier-matched element. -/
theorem identifier_match_second_strategy_witness :
    findElementByTarget c2Root2 "Wages" = some idNode :=
  identifier_match_second_strategy c2Root2 "Wages" idNode rfl rfl

/-- Sanity check of the ambiguity semantics: when two descendants share the
automation id `dup`, the auto-id probe raises `ElementAmbiguousError` inside
`exists()`, the bare `except` falls through, and resolution lands on the
unique title-substring Edit match instead of either duplicate. -/
theorem duplicate_autoid_falls_through :
    findElementByTarget dupRoot "dup" = some subNode := by
  rfl

/-! ## C3: per-action isolation -/

/-- The executor's log is the pointwise image of the plan under the
per-action outcome. -/
theorem executeActionsAux_eq_map (d : Dispatch) :
    ∀ l : List PyAction, executeActionsAux d l = l.map (outcome d) := by
  intro l
  induction l with
  | nil => rfl
  | cons a rest ih => simp [executeActionsAux, ih]

/-- C3: per-action isolation in `execute_actions`.  Every action of the plan
is attempted and its caught-or-completed outcome recorded — the log has one
entry per action, and the entry for action `i` is determined by dispatching
action `i` alone, whatever exceptions any other action raised.  A single
action's failure therefore never terminates execution of the rest of the
plan. -/
theorem execute_actions_isolation (d : Dispatch) (actions : List PyAction)
    (i : Nat) (h : i < actions.length) :
    (executeActions d actions).1.length = actions.length ∧
    (executeActions d actions).1.get? i = some (outcome d (actions.get ⟨i, h⟩)) := by
  constructor
  · simp [executeActions, executeActionsAux_eq_map]
  · simp only [executeActions, executeActionsAux_eq_map, List.get?_map]
    rw [List.get?_eq_get h]
    rfl

/-- C3 witness: on the three-action plan whose second action raises `boom`,
the third action is still attempted and its outcome recorded. -/
theorem execute_actions_isolation_witness :
    (executeActions dFail2 plan3).1.get? 2 =
      some (outcome dFail2 (plan3.get ⟨2, by decide⟩)) :=
  (execute_actions_isolation dFail2 plan3 2 (by decide)).2

/-! ## C4: result aggregation -/

/-- C4 counterexample: `execute_actions` does not return per-action
`FillResult`s aggregated into filled/skipped/failed counts.  Its return value
is the literal `True`: on the three-action plan whose second action raises,
the value returned equals the value returned when every action succeeds, so
it cannot show `filled = 2` and `failed = 1` (or any counts at all). -/
theorem execute_actions_returns_constant_true :
    (executeActions dFail2 plan3).2 = true ∧
    (executeActions dFail2 plan3).2 = (executeActions dOk plan3).2 := by
  exact ⟨rfl, rfl⟩

/-- C4 amended: `execute_actions` processes the plan strictly in order and
records per-action outcomes only in the log, returning `True` unconditionally
instead of a result summary.  For the three-action plan where actions 1 and 3
succeed and action 2 raises on dispatch, the log records success for actions
1 and 3 and exactly one failure (action 2); no skipped/filled/failed counts
are returned to the caller, and an unresolved target is not recorded either
(the dispatch helpers swallow it). -/
theorem execute_actions_log_and_return :
    executeActions dFail2 plan3 = ([none, some "boom", none], true) ∧
    (executeActions dFail2 plan3).1.countP (fun o => o.isSome) = 1 := by
  exact ⟨rfl, rfl⟩

/-! ## C5: plan construction tolerance -/

/-- C5 counterexample: plan construction in `ask_gemini_for_actions` performs
no per-entry kind validation.  Given the oracle list with one unknown-kind
entry (`teleport`) and two valid entries, the resulting plan has length 3,
not 2, and executing it records zero failures — the unknown entry is silently
skipped by the dispatch chain, so the recorded validation-failure count is 0,
not 1. -/
theorem plan_keeps_unknown_kinds :
    (askGeminiForActions (.ok c5List)).length = 3 ∧
    (executeActions dOk (askGeminiForActions (.ok c5List))).1.countP
      (fun o => o.isSome) = 0 := by
  exact ⟨rfl, rfl⟩

/-- C5 amended: plan construction keeps every successfully parsed entry,
including entries with an unrecognized kind; such an entry is not rejected
and no validation failure is recorded — at execution the dispatch chain
matches no branch and the entry completes as a silent no-op, while the valid
entries still execute. -/
theorem plan_partial_tolerance_amended (d : Dispatch) (l : List PyAction)
    (a : PyAction) :
    (askGeminiForActions (.ok l)).length = l.length ∧
    (isKnownKind a = false → actionBody d a = .ok ()) := by
  constructor
  · rfl
  · intro hk
    simp only [isKnownKind, Bool.or_eq_false_iff] at hk
    obtain ⟨⟨⟨⟨h1, h2⟩, h3⟩, h4⟩, h5⟩ := hk
    simp [actionBody, h1, h2, h3, h4, h5]

/-- C5 amended witness: the concrete unknown-kind entry `teleport` from the
sample oracle list executes as a no-op, and the plan keeps all three
entries. -/
theorem plan_partial_tolerance_amended_witness :
    (askGeminiForActions (.ok c5List)).length = c5List.length ∧
    actionBody dOk teleportAct = .ok () :=
  ⟨(plan_partial_tolerance_amended dOk c5List teleportAct).1,
   (plan_partial_tolerance_amended dOk c5List teleportAct).2 (by decide)⟩

/-! ## C9: wait-action duration -/

/-- C9 counterexample: a `wait` whose value is non-empty but unparseable does
not default to `1.0` and does not complete — `float("abc")` raises
`ValueError`, the per-action handler catches it, and the action is recorded
as failed. -/
theorem wait_unparseable_fails_action :
    waitBranch "abc" = .error "ValueError: could not convert string to float" ∧
    (executeActions dOk [waitAbc]).1 =
      [some "ValueError: could not convert string to float"] := by
  exact ⟨rfl, rfl⟩

/-- C9 amended: the executor suspends a `wait` action for `float(value)`
when the value is non-empty and parses to a finite number, and defaults the
duration to `1.0` only when the value is absent or empty.  A non-empty value
on which Python's `float` raises `ValueError` does not complete the wait:
per-action isolation catches the error, the action is recorded as failed,
and every subsequent action is still attempted. -/
theorem wait_duration_amended (d : Dispatch) (v : String) (rest : List PyAction) :
    waitBranch "" = .ok 1 ∧
    (∀ r : Rat, v ≠ "" → pyFloat v = some (.fin r) →
      actionBody d (waitAct v) = d.sleep r) ∧
    (v ≠ "" → pyFloat v = none →
      (executeActions d (waitAct v :: rest)).1 =
        some "ValueError: could not convert string to float" ::
          (executeActions d rest).1) := by
  refine ⟨rfl, ?_, ?_⟩
  · intro r hv hp
    have hv' : (v == "") = false := by
      simp [hv]
    simp [actionBody, waitAct, waitBranch, hv', hp]
  · intro hv hp
    have hv' : (v == "") = false := by
      simp [hv]
    simp [executeActions, executeActionsAux, outcome, actionBody, waitAct,
      waitBranch, hv', hp]

/-- Sanity check of the float model against CPython's `float` on the
spellings the parser must classify: exponents, underscore digit separators
and signed `inf`/`nan` parse; stray underscores, bare exponents and
non-numeric text raise `ValueError`. -/
theorem pyFloat_python_cases :
    pyFloat "1e3" = some (.fin 1000) ∧
    pyFloat "1_0" = some (.fin 10) ∧
    pyFloat "-2.5e-1" = some (.fin (-(1 / 4))) ∧
    pyFloat "1." = some (.fin 1) ∧
    pyFloat ".5" = some (.fin (1 / 2)) ∧
    pyFloat " inf " = some (.inf false) ∧
    pyFloat "-Infinity" = some (.inf true) ∧
    pyFloat "NaN" = some .nan ∧
    pyFloat "abc" = none ∧
    pyFloat "1_" = none ∧
    pyFloat "_1" = none ∧
    pyFloat "1__0" = none ∧
    pyFloat "1e_3" = none ∧
    pyFloat "e3" = none ∧
    pyFloat "" = none := by
  refine ⟨?_, ?_, ?_, ?_, ?_, rfl, rfl, rfl, rfl, rfl, rfl, rfl, rfl, rfl, rfl⟩
  · show some (FloatLit.fin (mantissaVal ['1'] [] * (10 : Rat) ^ digitsVal ['3'])) =
      some (FloatLit.fin 1000)
    norm_num [mantissaVal, fracVal, show digitsVal ['1'] = 1 from rfl,
      show digitsVal ['3'] = 3 from rfl, show digitsVal [] = 0 from rfl]
  · show some (FloatLit.fin (mantissaVal ['1', '0'] [])) = some (FloatLit.fin 10)
    norm_num [mantissaVal, fracVal, show digitsVal ['1', '0'] = 10 from rfl,
      show digitsVal [] = 0 from rfl]
  · show some (FloatLit.fin (-(mantissaVal ['2'] ['5'] / (10 : Rat) ^ digitsVal ['1']))) =
      some (FloatLit.fin (-(1 / 4)))
    norm_num [mantissaVal, fracVal, show digitsVal ['2'] = 2 from rfl,
      show digitsVal ['5'] = 5 from rfl, show digitsVal ['1'] = 1 from rfl]
  · show some (FloatLit.fin (mantissaVal ['1'] [])) = some (FloatLit.fin 1)
    norm_num [mantissaVal, fracVal, show digitsVal ['1'] = 1 from rfl,
      show digitsVal [] = 0 from rfl]
  · show some (FloatLit.fin (mantissaVal [] ['5'])) = some (FloatLit.fin (1 / 2))
    norm_num [mantissaVal, fracVal, show digitsVal ['5'] = 5 from rfl,
      show digitsVal [] = 0 from rfl]

/-- C9 witness: the concrete unparseable `wait` value `abc` is recorded as a
failed action by the executor. -/
theorem wait_duration_amended_witness :
    (executeActions dOk [waitAbc]).1 =
      some "ValueError: could not convert string to float" ::
        (executeActions dOk []).1 :=
  (wait_duration_amended dOk "abc" []).2.2 (by decide) rfl

end FormAuto
